import Mathlib

/-!
Verification of the abuse-detection engine of the discord-botfg repository
(src/anti_spam.py, src/anti_raid.py, src/anti_nuke.py, src/config.py).

Shallow embedding: timestamps are integers (seconds); the per-subject deques
of the three detectors are lists of timestamps in append (chronological)
order; the async handlers are modelled as pure functions returning the new
state, the list of side effects they perform (in program order), and the
Python exception, if any, that escapes the handler.  `await asyncio.sleep(n)`
is modelled as an `Effect.slept n` entry after resolving the module-level
global name `asyncio` against the names actually bound by the import
statements of the module.
-/

namespace DiscordBot

/- Configuration constants from src/config.py. -/
namespace Config

def SPAM_MESSAGE_LIMIT : Nat := 30

def SPAM_TIME_WINDOW : Int := 60

def RAID_JOIN_LIMIT : Nat := 10

def RAID_TIME_WINDOW : Int := 60

def NUKE_ACTION_LIMIT : Nat := 5

def NUKE_TIME_WINDOW : Int := 60

end Config

/-- The module-level global names bound by the import statements of
src/anti_spam.py: `import discord`, `from discord.ext import commands`,
`from collections import defaultdict, deque`,
`from datetime import datetime, timedelta`, `import asyncio`,
`from config import Config`. -/
def antiSpamModuleGlobals : List String :=
  ["discord", "commands", "defaultdict", "deque", "datetime", "timedelta", "asyncio", "Config"]

/-- The module-level global names bound by the import statements of
src/anti_raid.py (lines 1-5): `import discord`,
`from discord.ext import commands`, `from collections import defaultdict, deque`,
`from datetime import datetime, timedelta`, `from config import Config`.
Note: `asyncio` is NOT imported by this module. -/
def antiRaidModuleGlobals : List String :=
  ["discord", "commands", "defaultdict", "deque", "datetime", "timedelta", "Config"]

/-- The module-level global names bound by the import statements of
src/anti_nuke.py (lines 1-6), which do include `import asyncio`. -/
def antiNukeModuleGlobals : List String :=
  ["discord", "commands", "defaultdict", "deque", "datetime", "timedelta", "asyncio", "Config"]

/-- A Python exception escaping a handler. -/
inductive PyError where
  | nameError (n : String)
  deriving DecidableEq, Repr

/-- Side effects performed by the detector handlers, in program order. -/
inductive Effect where
  | dmWarning
  | channelWarning
  | logSpam (action : String) (count : Nat)
  | kick
  | timeout (minutes : Nat)
  | setVerification (level : String)
  | logRaid (action : String)
  | logNuke (action : String)
  | alertSent
  | slept (secs : Nat)
  | setRaidMode (b : Bool)
  | setNukeMode (b : Bool)
  | clearSuspicious
  | removedRoles (names : List String)
  deriving DecidableEq, Repr

/-! ## Anti-spam (src/anti_spam.py) -/

/-- `AntiSpamCog.is_spam` (src/anti_spam.py lines 46-59): trims the user's
message deque of entries older than 1 minute (`now - t > timedelta(minutes=1)`),
appends the current timestamp, and returns whether the resulting length
exceeds `Config.SPAM_MESSAGE_LIMIT`.  Returns the verdict together with the
updated deque (the source mutates `self.user_messages[user_id]` in place). -/
def is_spam (msgs : List Int) (now : Int) : Bool × List Int :=
  let user_msgs := msgs.dropWhile (fun t => decide (now - t > 60))
  let updated := user_msgs ++ [now]
  (decide (updated.length > Config.SPAM_MESSAGE_LIMIT), updated)

/-- Per-user state of the anti-spam cog: the user's entry in
`self.user_messages` (empty list for an absent entry, matching the
`defaultdict(deque)`) and whether the user is in `self.warned_users`. -/
structure SpamUserState where
  msgs : List Int
  warned : Bool
  deriving DecidableEq, Repr

/-- The permission outcomes of the remediation API calls inside
`AntiSpamCog.on_message`: whether `member.kick` succeeds and whether
`member.timeout` succeeds (a failure raises `discord.Forbidden`). -/
structure SpamPerms where
  kickOK : Bool
  timeoutOK : Bool
  deriving DecidableEq, Repr

/-- `AntiSpamCog.on_message` (src/anti_spam.py lines 61-142) for one message
of one user, run to completion.  Gate conditions mirror lines 64-70 (bots,
DMs, users with `manage_messages` are ignored).  On a first breach the
handler warns, sleeps 10 s (warning display) plus 30 s (grace), then
re-evaluates `is_spam` — modelled as a probe at `now + 40` — and kicks when
the re-check still reports spam; on a breach while already warned it kicks
immediately.  `discord.Forbidden` from the kick is caught and answered with
a 10-minute timeout, itself falling back to a log-only entry; the tracking
cleanup (`del self.user_messages[user_id]`, `warned_users.discard`) runs
only on the successful-kick paths, exactly as in the source. -/
def on_message (st : SpamUserState) (now : Int) (p : SpamPerms)
    (isBot : Bool) (inGuild : Bool) (manageMessages : Bool) :
    SpamUserState × List Effect × Option PyError :=
  if isBot || !inGuild then (st, [], none)
  else if manageMessages then (st, [], none)
  else
    let r1 := is_spam st.msgs now
    let st1 : SpamUserState := { st with msgs := r1.2 }
    if r1.1 then
      if !st1.warned then
        let st2 : SpamUserState := { st1 with warned := true }
        let warnEffs : List Effect :=
          [Effect.dmWarning, Effect.channelWarning, Effect.slept 10,
           Effect.logSpam "WARNING" r1.2.length, Effect.slept 30]
        let r2 := is_spam st2.msgs (now + 40)
        let st3 : SpamUserState := { st2 with msgs := r2.2 }
        if r2.1 then
          if p.kickOK then
            (⟨[], false⟩,
             warnEffs ++ [Effect.kick, Effect.logSpam "KICKED" r2.2.length], none)
          else if p.timeoutOK then
            (st3,
             warnEffs ++ [Effect.timeout 10, Effect.logSpam "TIMED OUT (10 min)" r2.2.length],
             none)
          else
            (st3,
             warnEffs ++ [Effect.logSpam "DETECTED (No Permission)" r2.2.length], none)
        else
          ({ st3 with warned := false }, warnEffs, none)
      else
        if p.kickOK then
          (⟨[], false⟩, [Effect.kick, Effect.logSpam "KICKED" r1.2.length], none)
        else if p.timeoutOK then
          (st1, [Effect.timeout 10, Effect.logSpam "TIMED OUT (10 min)" r1.2.length], none)
        else
          (st1, [Effect.logSpam "DETECTED (No Permission)" r1.2.length], none)
    else (st1, [], none)

/-- Deliver a sequence of qualifying guild messages (non-bot, unprivileged)
from one user, accumulating the effects of each `on_message` invocation. -/
def runMessages (st : SpamUserState) (p : SpamPerms) (times : List Int) :
    SpamUserState × List Effect :=
  times.foldl (fun acc t =>
    let r := on_message acc.1 t p false true false
    (r.1, acc.2 ++ r.2.1)) (st, [])

/-! ## Anti-raid (src/anti_raid.py) -/

/-- The fields of a joining member consulted by `is_suspicious_account`:
id, username, account-creation timestamp (seconds), avatar. -/
structure Member where
  id : Nat
  name : String
  created_at : Int
  avatar : Option String
  deriving DecidableEq, Repr

/-- The username denylist of `is_suspicious_account`
(src/anti_raid.py line 62). -/
def suspicious_patterns : List String := ["user", "member", "discord", "raid", "spam"]

/-- Does the second character list start with the first? -/
def startsWith : List Char → List Char → Bool
  | [], _ => true
  | _ :: _, [] => false
  | p :: ps, c :: cs => p == c && startsWith ps cs

/-- Does the character list contain the pattern as a contiguous sublist? -/
def containsChars (pat : List Char) : List Char → Bool
  | [] => pat.isEmpty
  | c :: cs => startsWith pat (c :: cs) || containsChars pat cs

/-- Python's `pattern in username` substring test. -/
def containsSub (s pat : String) : Bool := containsChars pat.data s.data

/-- Python's `str.lower`, character by character. -/
def lowerString (s : String) : String := ⟨s.data.map Char.toLower⟩

/-- Number of digit characters of a string (`sum(c.isdigit() for c in name)`). -/
def digitCount (s : String) : Nat := (s.data.filter Char.isDigit).length

/-- `AntiRaidCog.is_suspicious_account` (src/anti_raid.py lines 47-70):
age under 7 days, then missing avatar, then denylisted username substring,
then digit share of the username above 70 % (`digits > len * 0.7`, modelled
exactly as the rational comparison `10 * digits > 7 * len`).  First matching
rule supplies the reason string. -/
def is_suspicious_account (now : Int) (m : Member) : Bool × Option String :=
  let account_age := now - m.created_at
  if account_age < 7 * 86400 then
    let days := account_age / 86400
    (true, some s!"New account ({days} days old)")
  else if m.avatar.isNone then
    (true, some "No profile picture")
  else if suspicious_patterns.any (fun p => containsSub (lowerString m.name) p) then
    (true, some "Suspicious username pattern")
  else if 10 * digitCount m.name > 7 * m.name.length then
    (true, some "Username mostly numbers")
  else (false, none)

/-- State of the anti-raid cog: the guild-wide join deque, the protection
flag, and the suspicious-user id set (src/anti_raid.py lines 13-15). -/
structure RaidState where
  join_tracking : List Int
  raid_protection_active : Bool
  suspicious_users : List Nat
  deriving DecidableEq, Repr

/-- `AntiRaidCog.detect_raid` (src/anti_raid.py lines 72-81): trims joins
older than `Config.RAID_TIME_WINDOW` seconds from the front of the deque and
reports whether at least `Config.RAID_JOIN_LIMIT` joins remain.  Returns the
verdict with the trimmed deque (the source pops the deque in place). -/
def detect_raid (join_tracking : List Int) (now : Int) : Bool × List Int :=
  let trimmed := join_tracking.dropWhile (fun t => decide (now - t > Config.RAID_TIME_WINDOW))
  (decide (trimmed.length ≥ Config.RAID_JOIN_LIMIT), trimmed)

/-- `AntiRaidCog.deactivate_raid_protection` (src/anti_raid.py lines
129-143): no-op unless active; otherwise clear the flag, revert the
verification level to medium (best-effort), log, clear the suspicious set. -/
def deactivate_raid_protection (st : RaidState) : RaidState × List Effect :=
  if !st.raid_protection_active then (st, [])
  else
    ({ st with raid_protection_active := false, suspicious_users := [] },
     [Effect.setRaidMode false, Effect.setVerification "medium",
      Effect.logRaid "RAID PROTECTION DEACTIVATED", Effect.clearSuspicious])

/-- `AntiRaidCog.activate_raid_protection` (src/anti_raid.py lines 83-127):
no-op when already active; otherwise set the flag, raise the verification
level to high (best-effort), log, alert moderators, then execute
`await asyncio.sleep(1800)` followed by deactivation.  The `asyncio.sleep`
statement first resolves the global name `asyncio` in the module namespace of
anti_raid.py; since that module never imports asyncio, the resolution fails
and a `NameError` escapes, skipping the deactivation. -/
def activate_raid_protection (st : RaidState) : RaidState × List Effect × Option PyError :=
  if st.raid_protection_active then (st, [], none)
  else
    let st1 := { st with raid_protection_active := true }
    let effs := [Effect.setRaidMode true, Effect.setVerification "high",
                 Effect.logRaid "RAID PROTECTION ACTIVATED", Effect.alertSent]
    if "asyncio" ∈ antiRaidModuleGlobals then
      let r := deactivate_raid_protection st1
      (r.1, effs ++ [Effect.slept 1800] ++ r.2, none)
    else
      (st1, effs, some (PyError.nameError "asyncio"))

/-- `AntiRaidCog.on_member_join` (src/anti_raid.py lines 145-201): append the
join time, classify the account, record the suspicious id (inside the
log-channel branch, as in the source), run raid detection and — on a
verdict — activation, then, if protection is active and the account is
suspicious, kick with fallback 1-hour timeout and fallback log-only.  An
exception escaping activation aborts the rest of the handler. -/
def on_member_join (st : RaidState) (m : Member) (now : Int)
    (logChannel kickOK timeoutOK : Bool) :
    RaidState × List Effect × Option PyError :=
  let st1 := { st with join_tracking := st.join_tracking ++ [now] }
  let susp := (is_suspicious_account now m).1
  let st2 := if logChannel && susp
    then { st1 with suspicious_users := m.id :: st1.suspicious_users } else st1
  let rd := detect_raid st2.join_tracking now
  let st3 := { st2 with join_tracking := rd.2 }
  let ra := if rd.1 then activate_raid_protection st3 else (st3, [], none)
  match ra.2.2 with
  | some e => (ra.1, ra.2.1, some e)
  | none =>
    if ra.1.raid_protection_active && susp then
      if kickOK then
        (ra.1, ra.2.1 ++ [Effect.kick, Effect.logRaid "SUSPICIOUS USER KICKED"], none)
      else if timeoutOK then
        (ra.1, ra.2.1 ++ [Effect.timeout 60, Effect.logRaid "SUSPICIOUS USER TIMED OUT"], none)
      else
        (ra.1, ra.2.1 ++ [Effect.logRaid "SUSPICIOUS USER DETECTED (No Permission)"], none)
    else (ra.1, ra.2.1, none)

/-- Deliver a sequence of member joins, accumulating each handler's effects
(an exception terminates only its own handler invocation, as in the
discord.py event loop, so the fold continues). -/
def runJoins (st : RaidState) (joins : List (Member × Int))
    (logChannel kickOK timeoutOK : Bool) : RaidState × List Effect :=
  joins.foldl (fun acc j =>
    let r := on_member_join acc.1 j.1 j.2 logChannel kickOK timeoutOK
    (r.1, acc.2 ++ r.2.1)) (st, [])

/-! ## Anti-nuke (src/anti_nuke.py) -/

/-- State of the anti-nuke cog (src/anti_nuke.py lines 14-16): per-user
deque of (timestamp, action) pairs, the protection flag, the trusted set. -/
structure NukeState where
  action_tracking : Nat → List (Int × String)
  protected_mode : Bool
  trusted_users : List Nat

/-- `self.destructive_actions` (src/anti_nuke.py lines 19-22): the eight
action kinds declared as monitored. -/
def destructive_actions : List String :=
  ["channel_delete", "channel_create", "role_delete", "role_create",
   "member_ban", "member_kick", "guild_update", "webhook_create"]

/-- The `action_type` strings actually passed to `track_action` by the
gateway event listeners of src/anti_nuke.py (lines 153-248):
`on_guild_channel_delete`, `on_guild_channel_create`, `on_guild_role_delete`,
`on_guild_role_create`, `on_member_ban`, `on_guild_update`.  No listener in
the file tracks `member_kick` or `webhook_create`. -/
def listenerTrackedActionKinds : List String :=
  ["channel_delete", "channel_create", "role_delete", "role_create",
   "member_ban", "guild_update"]

/-- `AntiNukeCog.track_action` (src/anti_nuke.py lines 55-71): trusted users
are answered `False` before any window access; otherwise the user's deque is
trimmed of entries older than `Config.NUKE_TIME_WINDOW` seconds, the current
action is appended, and the verdict is whether the length exceeds
`Config.NUKE_ACTION_LIMIT`. -/
def track_action (st : NukeState) (user_id : Nat) (action_type : String) (now : Int) :
    Bool × NukeState :=
  if user_id ∈ st.trusted_users then (false, st)
  else
    let user_actions := st.action_tracking user_id
    let trimmed := user_actions.dropWhile (fun e => decide (now - e.1 > Config.NUKE_TIME_WINDOW))
    let updated := trimmed ++ [(now, action_type)]
    (decide (updated.length > Config.NUKE_ACTION_LIMIT),
     { st with action_tracking := fun u => if u = user_id then updated else st.action_tracking u })

/-- Iterate `track_action` for one user over a sequence of
(action, timestamp) calls, collecting the verdicts. -/
def track_many (st : NukeState) (user_id : Nat) (calls : List (String × Int)) :
    List Bool × NukeState :=
  match calls with
  | [] => ([], st)
  | c :: rest =>
    let r := track_action st user_id c.1 c.2
    let rr := track_many r.2 user_id rest
    (r.1 :: rr.1, rr.2)

/-- `AntiNukeCog.activate_protection_mode` (src/anti_nuke.py lines 109-151):
no-op when already protected; otherwise set the flag, log, alert the admins,
`await asyncio.sleep(3600)` (asyncio IS imported by anti_nuke.py, so the
sleep succeeds), clear the flag and log the deactivation — all inline in the
same coroutine. -/
def activate_protection_mode (st : NukeState) : NukeState × List Effect × Option PyError :=
  if st.protected_mode then (st, [], none)
  else
    let st1 := { st with protected_mode := true }
    let effs := [Effect.setNukeMode true, Effect.logNuke "PROTECTION MODE ACTIVATED",
                 Effect.alertSent]
    if "asyncio" ∈ antiNukeModuleGlobals then
      ({ st1 with protected_mode := false },
       effs ++ [Effect.slept 3600, Effect.setNukeMode false,
                Effect.logNuke "PROTECTION MODE DEACTIVATED"], none)
    else
      (st1, effs, some (PyError.nameError "asyncio"))

/-- The six permission bits of a role consulted by `handle_nuke_attempt`
(src/anti_nuke.py lines 80-83), plus the role name. -/
structure Role where
  name : String
  administrator : Bool
  manage_guild : Bool
  manage_channels : Bool
  manage_roles : Bool
  ban_members : Bool
  kick_members : Bool
  deriving DecidableEq, Repr

/-- `any(getattr(role.permissions, perm, False) for perm in dangerous_perms)`
over the six dangerous permission names. -/
def hasDangerousPerm (r : Role) : Bool :=
  r.administrator || r.manage_guild || r.manage_channels || r.manage_roles ||
  r.ban_members || r.kick_members

/-- `AntiNukeCog.handle_nuke_attempt` (src/anti_nuke.py lines 73-107):
when the acting member is resolvable, strip every role granting a dangerous
permission, apply a 24-hour timeout (1440 minutes), log, then activate
protection mode; a `discord.Forbidden` from the remediation calls jumps to
the except branch, which only logs (and therefore skips the activation). -/
def handle_nuke_attempt (st : NukeState) (member : Option (List Role)) (permOK : Bool)
    (action_type : String) : NukeState × List Effect × Option PyError :=
  match member with
  | some roles =>
    let roles_to_remove := roles.filter hasDangerousPerm
    if permOK then
      let remEffs :=
        (if roles_to_remove.isEmpty then []
         else [Effect.removedRoles (roles_to_remove.map Role.name)])
        ++ [Effect.timeout 1440, Effect.logNuke "NUKE ATTEMPT BLOCKED"]
      let r := activate_protection_mode st
      (r.1, remEffs ++ r.2.1, r.2.2)
    else
      (st, [Effect.logNuke "NUKE ATTEMPT DETECTED (No Permission)"], none)
  | none =>
    activate_protection_mode st

/-- Initial anti-raid cog state (constructor, src/anti_raid.py lines 13-15). -/
def raidInit : RaidState := ⟨[], false, []⟩

/-- Initial anti-nuke cog state (constructor, src/anti_nuke.py lines 14-16). -/
def nukeInit : NukeState := ⟨fun _ => [], false, []⟩

/-! ## Window-trimming lemmas -/

/-- On a chronologically ordered deque, popping stale entries from the front
(the source's `while ... popleft()` loop, i.e. `dropWhile`) removes exactly
the stale entries: the result is the filter of the in-window ones. -/
theorem dropWhile_old_eq_filter {α : Type} (time : α → Int) (now w : Int) :
    ∀ q : List α, (q.map time).Sorted (· ≤ ·) →
      q.dropWhile (fun e => decide (now - time e > w)) =
        q.filter (fun e => decide (now - time e ≤ w)) := by
  intro q
  induction q with
  | nil => intro _; rfl
  | cons a l ih =>
    intro hq
    rw [List.map_cons, List.sorted_cons] at hq
    by_cases hA : now - time a > w
    · rw [List.dropWhile_cons_of_pos (by simpa using hA),
        List.filter_cons_of_neg (by simpa using not_le.mpr hA)]
      exact ih hq.2
    · rw [List.dropWhile_cons_of_neg (by simpa using hA),
        List.filter_cons_of_pos (by simpa using not_lt.mp hA)]
      have hall : ∀ e ∈ l, (fun e => decide (now - time e ≤ w)) e = true := by
        intro e he
        have h1 : time a ≤ time e := hq.1 (time e) (List.mem_map_of_mem time he)
        have h2 : now - time e ≤ now - time a := by omega
        simpa using le_trans h2 (not_lt.mp hA)
      rw [List.filter_eq_self.mpr hall]

/-- An element a trimming pass has no reason to drop survives the pass. -/
theorem mem_dropWhile_of_mem {α : Type} (p : α → Bool) (a : α) (hpa : p a = false) :
    ∀ l : List α, a ∈ l → a ∈ l.dropWhile p := by
  intro l
  induction l with
  | nil => intro h; exact absurd h (List.not_mem_nil a)
  | cons x xs ih =>
    intro hmem
    by_cases hx : p x = true
    · rw [List.dropWhile_cons_of_pos hx]
      rcases List.mem_cons.mp hmem with rfl | hxs
      · exact absurd hx (by simp [hpa])
      · exact ih hxs
    · rw [List.dropWhile_cons_of_neg (by simpa using hx)]
      exact hmem

/-- Trim of a sorted timestamp list is exactly the in-window filter. -/
theorem trim_int_sorted (now w : Int) (q : List Int) (h : q.Sorted (· ≤ ·)) :
    q.dropWhile (fun t => decide (now - t > w)) =
      q.filter (fun t => decide (now - t ≤ w)) := by
  have hmap : (q.map (fun t => t)).Sorted (· ≤ ·) := by
    rw [List.map_id']; exact h
  simpa using dropWhile_old_eq_filter (fun t => t) now w q hmap

/-- Trim of a (timestamp, action) list whose timestamps are sorted is
exactly the in-window filter. -/
theorem trim_pair_sorted (now w : Int) (q : List (Int × String))
    (h : (q.map Prod.fst).Sorted (· ≤ ·)) :
    q.dropWhile (fun e => decide (now - e.1 > w)) =
      q.filter (fun e => decide (now - e.1 ≤ w)) :=
  dropWhile_old_eq_filter Prod.fst now w q h

/-! ## Concrete scenario inputs -/

/-- Six channel deletions by untrusted user 77, ten seconds apart. -/
def c6Calls : List (String × Int) :=
  [("channel_delete", 0), ("channel_delete", 10), ("channel_delete", 20),
   ("channel_delete", 30), ("channel_delete", 40), ("channel_delete", 50)]

/-- A role named Admin carrying the administrator permission. -/
def adminRole : Role := ⟨"Admin", true, false, false, false, false, false⟩

/-- An unremarkable member: 100-day-old account, avatar set, username with
no denylisted substring and no digits. -/
def okMember (i : Nat) : Member := ⟨i, "alice", -8640000, some "avatarhash"⟩

/-- A member whose account is exactly 2 days old at time 50. -/
def youngMember : Member := ⟨1001, "bob", 50 - 172800, none⟩

/-- Ten joins of unremarkable members, five seconds apart (times 0..45). -/
def c7TenJoins : List (Member × Int) :=
  (List.range 10).map (fun i => (okMember i, 5 * (i : Int)))

/-- The first nine of the ten joins. -/
def c7NineJoins : List (Member × Int) :=
  (List.range 9).map (fun i => (okMember i, 5 * (i : Int)))

/-- A burst of 31 qualifying messages, all at time 0. -/
def c3Burst : List Int := List.replicate 31 0

/-! ## Claim theorems -/

/-- C2 — the claim is right about the intended design and about the nuke
detector, but the raid side of the code is a slip: evaluated at the failing
input (a raid activation from `Normal`), `activate_raid_protection` sets the
flag and then raises `NameError` at `await asyncio.sleep(1800)` because
src/anti_raid.py never imports `asyncio`, so the deactivation (flag revert,
verification-level revert, suspicious-set clear) is never reached and no
`setRaidMode false` effect ever occurs; the nuke detector, whose module
does bind asyncio, does return to `Normal` after its 60-minute dwell. -/
theorem C2_auto_expiry_code_eval :
    (activate_raid_protection raidInit).2.2 = some (PyError.nameError "asyncio")
    ∧ (activate_raid_protection raidInit).1.raid_protection_active = true
    ∧ Effect.setRaidMode false ∉ (activate_raid_protection raidInit).2.1
    ∧ "asyncio" ∉ antiRaidModuleGlobals
    ∧ (activate_protection_mode nukeInit).1.protected_mode = false
    ∧ (activate_protection_mode nukeInit).2.1 =
        [Effect.setNukeMode true, Effect.logNuke "PROTECTION MODE ACTIVATED",
         Effect.alertSent, Effect.slept 3600, Effect.setNukeMode false,
         Effect.logNuke "PROTECTION MODE DEACTIVATED"] := by
  refine ⟨rfl, rfl, ?_, ?_, rfl, rfl⟩ <;> decide

/-- C4 — the claim is right about the declared design and the code is
missing two listeners: `member_kick` and `webhook_create` are members of
`self.destructive_actions` (and the cog's own status embeds list kicks and
webhook creation as monitored), yet no event listener in src/anti_nuke.py
ever calls `track_action` with either kind; the other six kinds are all
covered by listeners. -/
theorem C4_action_coverage_gap :
    "member_kick" ∈ destructive_actions
    ∧ "webhook_create" ∈ destructive_actions
    ∧ "member_kick" ∉ listenerTrackedActionKinds
    ∧ "webhook_create" ∉ listenerTrackedActionKinds
    ∧ listenerTrackedActionKinds.all (fun k => decide (k ∈ destructive_actions)) = true
    ∧ listenerTrackedActionKinds.length = 6 := by
  decide

/-- C6 — nuke threshold scenario: six `channel_delete` actions by the same
untrusted user within 60 seconds give `exceeded = false` on the first five
`track_action` calls and `true` on the sixth (count 6 exceeds the limit 5);
`handle_nuke_attempt` on the resulting state then removes the member's
dangerous-permission roles, applies the 24-hour (1440-minute) timeout, and
the guild protection mode transitions from `Normal` to `Enhanced`
(`setNukeMode true` is performed, the flag having been false before). -/
theorem C6_nuke_threshold_scenario :
    (track_many nukeInit 77 c6Calls).1 = [false, false, false, false, false, true]
    ∧ (track_many nukeInit 77 c6Calls).2.protected_mode = false
    ∧ Effect.removedRoles ["Admin"] ∈
        (handle_nuke_attempt (track_many nukeInit 77 c6Calls).2 (some [adminRole])
          true "Mass Channel Deletion").2.1
    ∧ Effect.timeout 1440 ∈
        (handle_nuke_attempt (track_many nukeInit 77 c6Calls).2 (some [adminRole])
          true "Mass Channel Deletion").2.1
    ∧ Effect.setNukeMode true ∈
        (handle_nuke_attempt (track_many nukeInit 77 c6Calls).2 (some [adminRole])
          true "Mass Channel Deletion").2.1 := by
  refine ⟨rfl, rfl, ?_, ?_, ?_⟩ <;> decide

/-- C7 — raid scenario: after nine joins within 60 seconds protection is
still off; the tenth join makes `detect_raid` fire (ten retained joins reach
the limit 10) and raid protection activates (`setRaidMode true`, flag set);
an eleventh join at time 50 by an account exactly 2 days old is classified
suspicious with reason "New account (2 days old)" and is kicked while the
mode is active; with the kick forbidden the handler falls back to a 1-hour
(60-minute) timeout, and with both forbidden to a log-only entry. -/
theorem C7_raid_scenario :
    (runJoins raidInit c7NineJoins true true true).1.raid_protection_active = false
    ∧ (runJoins raidInit c7TenJoins true true true).1.raid_protection_active = true
    ∧ Effect.setRaidMode true ∈ (runJoins raidInit c7TenJoins true true true).2
    ∧ is_suspicious_account 50 youngMember = (true, some "New account (2 days old)")
    ∧ (on_member_join (runJoins raidInit c7TenJoins true true true).1
        youngMember 50 true true true).2.1 =
        [Effect.kick, Effect.logRaid "SUSPICIOUS USER KICKED"]
    ∧ (on_member_join (runJoins raidInit c7TenJoins true true true).1
        youngMember 50 true false true).2.1 =
        [Effect.timeout 60, Effect.logRaid "SUSPICIOUS USER TIMED OUT"]
    ∧ (on_member_join (runJoins raidInit c7TenJoins true true true).1
        youngMember 50 true false false).2.1 =
        [Effect.logRaid "SUSPICIOUS USER DETECTED (No Permission)"] := by
  refine ⟨rfl, rfl, ?_, ?_, ?_, ?_, ?_⟩ <;> decide

/-- C3 counterexample — the claim's no-further-messages branch is false on
the code: a user who sends 31 qualifying messages at time 0 and nothing
afterwards is still kicked, because the grace re-check about 40 seconds
after the warning calls `is_spam` again (appending a probe) while the
original 31 messages are still inside the 60-second window, giving a count
of 32 over the limit 30; exactly one warning is issued, and the kick happens
with zero post-warning messages. -/
theorem C3_grace_counterexample :
    Effect.kick ∈ (runMessages ⟨[], false⟩ ⟨true, true⟩ c3Burst).2
    ∧ (runMessages ⟨[], false⟩ ⟨true, true⟩ c3Burst).2.count Effect.channelWarning = 1
    ∧ (runMessages ⟨[], false⟩ ⟨true, true⟩ c3Burst).2 =
        [Effect.dmWarning, Effect.channelWarning, Effect.slept 10,
         Effect.logSpam "WARNING" 31, Effect.slept 30, Effect.kick,
         Effect.logSpam "KICKED" 32] := by
  refine ⟨?_, ?_, rfl⟩ <;> decide

/-- C9 counterexample — the reset-to-Clean half of the claim is false on the
code: for a warned user with 31 in-window messages whose kick fails with
`Forbidden`, the handler falls back to the 10-minute timeout but performs no
tracking cleanup, so the warned flag stays set and the window stays
non-empty (32 entries), contradicting "in every remediation outcome the
state is reset to Clean with the window cleared". -/
theorem C9_reset_counterexample :
    Effect.timeout 10 ∈
      (on_message ⟨List.replicate 31 0, true⟩ 0 ⟨false, true⟩ false true false).2.1
    ∧ (on_message ⟨List.replicate 31 0, true⟩ 0 ⟨false, true⟩ false true false).1.warned = true
    ∧ (on_message ⟨List.replicate 31 0, true⟩ 0 ⟨false, true⟩ false true false).1.msgs.length = 32 := by
  refine ⟨?_, rfl, rfl⟩
  decide

/-- C1 — sliding-window correctness, confirmed: for a single subject whose
events arrive in chronological (sorted) order, each of the three window
updates (`is_spam`, `detect_raid`, `track_action` for an untrusted user)
removes exactly the prefix of timestamps older than now − W (W = 60 s),
leaving the filter of events with timestamp ≥ now − W (stated as
now − t ≤ 60); the tracked count is the number of retained events (the spam
and nuke updates append the current event, hence their +1), and every
retained entry lies inside the window, so events outside it never
contribute. -/
theorem C1_sliding_window_correctness (now : Int) (msgs joins : List Int)
    (nst : NukeState) (uid : Nat) (a : String)
    (hm : msgs.Sorted (· ≤ ·)) (hj : joins.Sorted (· ≤ ·))
    (hn : ((nst.action_tracking uid).map Prod.fst).Sorted (· ≤ ·))
    (htr : uid ∉ nst.trusted_users) :
    (is_spam msgs now).2 = msgs.filter (fun t => decide (now - t ≤ 60)) ++ [now]
    ∧ (is_spam msgs now).2.length
        = (msgs.filter (fun t => decide (now - t ≤ 60))).length + 1
    ∧ (detect_raid joins now).2 = joins.filter (fun t => decide (now - t ≤ 60))
    ∧ (detect_raid joins now).2.length
        = (joins.filter (fun t => decide (now - t ≤ 60))).length
    ∧ (track_action nst uid a now).2.action_tracking uid
        = (nst.action_tracking uid).filter (fun e => decide (now - e.1 ≤ 60)) ++ [(now, a)]
    ∧ ((track_action nst uid a now).2.action_tracking uid).length
        = ((nst.action_tracking uid).filter (fun e => decide (now - e.1 ≤ 60))).length + 1
    ∧ (is_spam msgs now).2.all (fun t => decide (now - t ≤ 60)) = true
    ∧ (detect_raid joins now).2.all (fun t => decide (now - t ≤ 60)) = true := by
  have hspam : (is_spam msgs now).2
      = msgs.filter (fun t => decide (now - t ≤ 60)) ++ [now] := by
    simp only [is_spam]
    rw [trim_int_sorted now 60 msgs hm]
  have hraid : (detect_raid joins now).2
      = joins.filter (fun t => decide (now - t ≤ 60)) := by
    simp only [detect_raid, Config.RAID_TIME_WINDOW]
    rw [trim_int_sorted now 60 joins hj]
  have hnuke : (track_action nst uid a now).2.action_tracking uid
      = (nst.action_tracking uid).filter (fun e => decide (now - e.1 ≤ 60)) ++ [(now, a)] := by
    simp only [track_action, Config.NUKE_TIME_WINDOW]
    rw [if_neg htr]
    simp only [if_pos rfl]
    rw [trim_pair_sorted now 60 _ hn]
    simp
  refine ⟨hspam, ?_, hraid, ?_, hnuke, ?_, ?_, ?_⟩
  · rw [hspam, List.length_append, List.length_singleton]
  · rw [hraid]
  · rw [hnuke, List.length_append, List.length_singleton]
  · rw [hspam, List.all_append]
    have h1 : (msgs.filter (fun t => decide (now - t ≤ 60))).all
        (fun t => decide (now - t ≤ 60)) = true := by
      rw [List.all_eq_true]
      intro t ht
      exact (List.mem_filter.mp ht).2
    have h2 : ([now] : List Int).all (fun t => decide (now - t ≤ 60)) = true := by
      simp only [List.all_cons, List.all_nil, Bool.and_true, decide_eq_true_eq]
      omega
    rw [h1, h2]
    rfl
  · rw [hraid, List.all_eq_true]
    intro t ht
    exact (List.mem_filter.mp ht).2

/-- C1 witness: a concrete single-subject history — three events at times
30, 50, 90 evaluated at now = 100 with W = 60, where the event at 30 is
outside the window and the two at 50 and 90 are retained. -/
theorem C1_sliding_window_witness :
    ([30, 50, 90] : List Int).Sorted (· ≤ ·)
    ∧ (7 : Nat) ∉ ([] : List Nat)
    ∧ (is_spam [30, 50, 90] 100).2
        = ([30, 50, 90] : List Int).filter (fun t => decide (100 - t ≤ 60)) ++ [100]
    ∧ (detect_raid [30, 50, 90] 100).2
        = ([30, 50, 90] : List Int).filter (fun t => decide (100 - t ≤ 60))
    ∧ (track_action ⟨fun _ => [(30, "channel_delete"), (90, "member_ban")], false, []⟩
          7 "role_delete" 100).2.action_tracking 7
        = ([(30, "channel_delete"), (90, "member_ban")] : List (Int × String)).filter
            (fun e => decide (100 - e.1 ≤ 60)) ++ [(100, "role_delete")] := by
  refine ⟨by decide, by decide, ?_, ?_, ?_⟩
  · exact (C1_sliding_window_correctness 100 [30, 50, 90] [30, 50, 90]
      ⟨fun _ => [(30, "channel_delete"), (90, "member_ban")], false, []⟩ 7 "role_delete"
      (by decide) (by decide) (by decide) (by decide)).1
  · exact (C1_sliding_window_correctness 100 [30, 50, 90] [30, 50, 90]
      ⟨fun _ => [(30, "channel_delete"), (90, "member_ban")], false, []⟩ 7 "role_delete"
      (by decide) (by decide) (by decide) (by decide)).2.2.1
  · exact (C1_sliding_window_correctness 100 [30, 50, 90] [30, 50, 90]
      ⟨fun _ => [(30, "channel_delete"), (90, "member_ban")], false, []⟩ 7 "role_delete"
      (by decide) (by decide) (by decide) (by decide)).2.2.2.2.1

/-- C5 — trust exemption, confirmed: for a user id in the trusted set,
`track_action` returns `False` and leaves the entire cog state (every user's
window included) untouched, for every action type; iterating any volume of
calls yields all-`False` verdicts and the unchanged state, so a trusted
subject is never recorded and never triggers detection. -/
theorem C5_trust_exemption (st : NukeState) (uid : Nat) (a : String) (now : Int)
    (calls : List (String × Int)) (htr : uid ∈ st.trusted_users) :
    track_action st uid a now = (false, st)
    ∧ track_many st uid calls = (List.replicate calls.length false, st) := by
  have hone : ∀ (a' : String) (now' : Int), track_action st uid a' now' = (false, st) := by
    intro a' now'
    simp only [track_action, if_pos htr]
  refine ⟨hone a now, ?_⟩
  induction calls with
  | nil => rfl
  | cons c rest ih =>
    simp only [track_many, hone c.1 c.2, ih, List.length_cons, List.replicate_succ]

/-- C5 witness: trusted user 5 issues three destructive actions in one
second; every call returns `False` and the state is unchanged. -/
theorem C5_trust_exemption_witness :
    (5 : Nat) ∈ ([5, 9] : List Nat)
    ∧ track_action ⟨fun _ => [], false, [5, 9]⟩ 5 "channel_delete" 0
        = (false, ⟨fun _ => [], false, [5, 9]⟩)
    ∧ track_many ⟨fun _ => [], false, [5, 9]⟩ 5
        [("channel_delete", 0), ("member_ban", 0), ("role_delete", 1)]
        = ([false, false, false], ⟨fun _ => [], false, [5, 9]⟩) :=
  ⟨by decide,
   (C5_trust_exemption ⟨fun _ => [], false, [5, 9]⟩ 5 "channel_delete" 0
     [("channel_delete", 0), ("member_ban", 0), ("role_delete", 1)] (by decide)).1,
   (C5_trust_exemption ⟨fun _ => [], false, [5, 9]⟩ 5 "channel_delete" 0
     [("channel_delete", 0), ("member_ban", 0), ("role_delete", 1)] (by decide)).2⟩

/-- Evaluation of `activate_raid_protection` from `Normal`: the flag is set,
the activation effects run once, and the handler dies with `NameError` at
the unresolvable `asyncio` global, never reaching deactivation. -/
theorem raid_activation_eq (st : RaidState) (h : st.raid_protection_active = false) :
    activate_raid_protection st =
      ({ st with raid_protection_active := true },
       [Effect.setRaidMode true, Effect.setVerification "high",
        Effect.logRaid "RAID PROTECTION ACTIVATED", Effect.alertSent],
       some (PyError.nameError "asyncio")) := by
  have hh : ¬ ("asyncio" ∈ antiRaidModuleGlobals) := by decide
  simp only [activate_raid_protection, h, Bool.false_eq_true, if_false, if_neg hh]

/-- Evaluation of `activate_protection_mode` from `Normal`: the flag is set,
the activation effects run once, the coroutine sleeps its 60-minute dwell
and then clears the flag again. -/
theorem nuke_activation_eq (st : NukeState) (h : st.protected_mode = false) :
    activate_protection_mode st =
      ({ st with protected_mode := false },
       [Effect.setNukeMode true, Effect.logNuke "PROTECTION MODE ACTIVATED",
        Effect.alertSent, Effect.slept 3600, Effect.setNukeMode false,
        Effect.logNuke "PROTECTION MODE DEACTIVATED"],
       none) := by
  have hh : ("asyncio" ∈ antiNukeModuleGlobals) := by decide
  simp only [activate_protection_mode, h, Bool.false_eq_true, if_false, if_pos hh]
  rfl

/-- C8 — idempotent activation, confirmed: invoking either protection-mode
activation while the mode is already `Enhanced` returns immediately with the
state unchanged, no effects (no alert, no verification change, no timer),
and no error; and an activation from `Normal` sends exactly one alert
(raid additionally: re-invoking on the state left by the first activation is
a no-op, so the alert is not duplicated). -/
theorem C8_idempotent_activation (rst rst0 : RaidState) (nst nst0 : NukeState)
    (hr : rst.raid_protection_active = true) (hn : nst.protected_mode = true)
    (hr0 : rst0.raid_protection_active = false) (hn0 : nst0.protected_mode = false) :
    activate_raid_protection rst = (rst, [], none)
    ∧ activate_protection_mode nst = (nst, [], none)
    ∧ (activate_raid_protection rst0).2.1.count Effect.alertSent = 1
    ∧ activate_raid_protection (activate_raid_protection rst0).1
        = ((activate_raid_protection rst0).1, [], none)
    ∧ (activate_protection_mode nst0).2.1.count Effect.alertSent = 1 := by
  refine ⟨?_, ?_, ?_, ?_, ?_⟩
  · simp only [activate_raid_protection, hr, if_true]
  · simp only [activate_protection_mode, hn, if_true]
  · rw [raid_activation_eq rst0 hr0]
    rfl
  · rw [raid_activation_eq rst0 hr0]
    simp only [activate_raid_protection, if_true]
  · rw [nuke_activation_eq nst0 hn0]
    rfl

/-- C8 witness: concrete already-Enhanced states (no-op, no effects) and
concrete Normal states (exactly one alert each; raid re-activation no-op). -/
theorem C8_idempotent_activation_witness :
    activate_raid_protection ⟨[0], true, [3]⟩ = (⟨[0], true, [3]⟩, [], none)
    ∧ activate_protection_mode ⟨fun _ => [], true, []⟩ = (⟨fun _ => [], true, []⟩, [], none)
    ∧ (activate_raid_protection ⟨[], false, []⟩).2.1.count Effect.alertSent = 1
    ∧ activate_raid_protection (activate_raid_protection ⟨[], false, []⟩).1
        = ((activate_raid_protection ⟨[], false, []⟩).1, [], none)
    ∧ (activate_protection_mode ⟨fun _ => [], false, []⟩).2.1.count Effect.alertSent = 1 :=
  C8_idempotent_activation ⟨[0], true, [3]⟩ ⟨[], false, []⟩
    ⟨fun _ => [], true, []⟩ ⟨fun _ => [], false, []⟩ rfl rfl rfl rfl

/-- C3 amended — spam grace outcome as the code implements it: on a first
breach by an untrusted, unprivileged user exactly one (channel) warning is
issued and the user enters the warned state; a further qualifying message
while warned triggers the immediate kick and resets the user to Clean; but
the no-more-messages outcome is decided by the grace re-check about 40 s
later, which itself re-runs `is_spam` (appending a probe): the user returns
to Clean without remediation exactly when that re-check is below the limit,
and is kicked despite sending nothing more when the original burst is still
inside the 60-second window (see the counterexample). -/
theorem C3_grace_amended (st st' : SpamUserState) (now now' : Int)
    (hw : st.warned = false) (hs : (is_spam st.msgs now).1 = true)
    (hw' : st'.warned = true) (hs' : (is_spam st'.msgs now').1 = true) :
    (on_message st now ⟨true, true⟩ false true false).2.1.count Effect.channelWarning = 1
    ∧ ((is_spam (is_spam st.msgs now).2 (now + 40)).1 = true →
        (on_message st now ⟨true, true⟩ false true false).1 = ⟨[], false⟩
        ∧ Effect.kick ∈ (on_message st now ⟨true, true⟩ false true false).2.1)
    ∧ ((is_spam (is_spam st.msgs now).2 (now + 40)).1 = false →
        (on_message st now ⟨true, true⟩ false true false).1
          = ⟨(is_spam (is_spam st.msgs now).2 (now + 40)).2, false⟩
        ∧ Effect.kick ∉ (on_message st now ⟨true, true⟩ false true false).2.1)
    ∧ Effect.kick ∈ (on_message st' now' ⟨true, true⟩ false true false).2.1
    ∧ (on_message st' now' ⟨true, true⟩ false true false).1 = ⟨[], false⟩ := by
  by_cases h2 : (is_spam (is_spam st.msgs now).2 (now + 40)).1 = true
  · refine ⟨?_, fun _ => ⟨?_, ?_⟩, fun hc => absurd h2 (by simp [hc]), ?_, ?_⟩ <;>
      simp [on_message, hw, hs, hw', hs', h2]
  · have h2f : (is_spam (is_spam st.msgs now).2 (now + 40)).1 = false :=
      Bool.eq_false_iff.mpr h2
    refine ⟨?_, fun hc => absurd hc h2, fun _ => ⟨?_, ?_⟩, ?_, ?_⟩ <;>
      simp [on_message, hw, hs, hw', hs', h2f]

/-- C3 amended witness: a user with 30 messages 30 s old breaches on the
31st at time 0 (warned, one warning); the grace re-check at time 40 still
counts the burst, so the kick fires (spam-true branch), while a second user
already warned and still over the limit is kicked immediately. -/
theorem C3_grace_amended_witness :
    (⟨List.replicate 30 (-30), false⟩ : SpamUserState).warned = false
    ∧ (is_spam (List.replicate 30 (-30 : Int)) 0).1 = true
    ∧ (on_message ⟨List.replicate 30 (-30), false⟩ 0 ⟨true, true⟩ false true false).2.1.count
        Effect.channelWarning = 1
    ∧ Effect.kick ∈ (on_message ⟨List.replicate 31 0, true⟩ 0 ⟨true, true⟩ false true false).2.1
    ∧ (on_message ⟨List.replicate 31 0, true⟩ 0 ⟨true, true⟩ false true false).1 = ⟨[], false⟩ := by
  refine ⟨rfl, by decide, ?_, ?_, ?_⟩
  · exact (C3_grace_amended ⟨List.replicate 30 (-30), false⟩ ⟨List.replicate 31 0, true⟩ 0 0
      rfl (by decide) rfl (by decide)).1
  · exact (C3_grace_amended ⟨List.replicate 30 (-30), false⟩ ⟨List.replicate 31 0, true⟩ 0 0
      rfl (by decide) rfl (by decide)).2.2.2.1
  · exact (C3_grace_amended ⟨List.replicate 30 (-30), false⟩ ⟨List.replicate 31 0, true⟩ 0 0
      rfl (by decide) rfl (by decide)).2.2.2.2

/-- No invocation of the spam handler lets an exception escape: the kick's
`discord.Forbidden` is answered by the timeout fallback, the timeout's by
the log-only fallback, and the outer `except Exception` swallows the rest. -/
theorem on_message_error_none (st : SpamUserState) (now : Int) (p : SpamPerms)
    (b g mm : Bool) : (on_message st now p b g mm).2.2 = none := by
  unfold on_message
  rcases b <;> rcases g <;> rcases mm <;> simp <;> split_ifs <;> rfl

/-- C9 amended — remediation fallback without reset: when the kick is
rejected the handler degrades to a 10-minute timeout and then to a log-only
entry, and no error ever escapes any invocation; the state reset to Clean
with the window cleared happens only on the successful-kick outcome — on
both fallback outcomes the warned flag stays set and the (probe-updated)
window is retained. -/
theorem C9_fallback_amended (st st2 : SpamUserState) (now now2 : Int) (p p2 : SpamPerms)
    (b g mm : Bool) (hw : st.warned = true) (hs : (is_spam st.msgs now).1 = true) :
    (on_message st2 now2 p2 b g mm).2.2 = none
    ∧ (p.kickOK = true →
        on_message st now p false true false
          = (⟨[], false⟩,
             [Effect.kick, Effect.logSpam "KICKED" (is_spam st.msgs now).2.length], none))
    ∧ (p.kickOK = false → p.timeoutOK = true →
        on_message st now p false true false
          = (⟨(is_spam st.msgs now).2, true⟩,
             [Effect.timeout 10,
              Effect.logSpam "TIMED OUT (10 min)" (is_spam st.msgs now).2.length], none))
    ∧ (p.kickOK = false → p.timeoutOK = false →
        on_message st now p false true false
          = (⟨(is_spam st.msgs now).2, true⟩,
             [Effect.logSpam "DETECTED (No Permission)" (is_spam st.msgs now).2.length],
             none)) := by
  refine ⟨on_message_error_none st2 now2 p2 b g mm, ?_, ?_, ?_⟩
  · intro hk
    simp [on_message, hw, hs, hk]
  · intro hk ht
    simp [on_message, hw, hs, hk, ht]
  · intro hk ht
    simp [on_message, hw, hs, hk, ht]

/-- C9 amended witness: a warned user with 31 in-window messages; with kick
allowed the handler kicks and resets; with kick forbidden it times out
without resetting; with both forbidden it only logs; no error escapes. -/
theorem C9_fallback_amended_witness :
    (⟨List.replicate 31 0, true⟩ : SpamUserState).warned = true
    ∧ (is_spam (List.replicate 31 (0 : Int)) 0).1 = true
    ∧ (on_message ⟨[], false⟩ 5 ⟨true, true⟩ true true false).2.2 = none
    ∧ on_message ⟨List.replicate 31 0, true⟩ 0 ⟨false, true⟩ false true false
        = (⟨(is_spam (List.replicate 31 0) 0).2, true⟩,
           [Effect.timeout 10,
            Effect.logSpam "TIMED OUT (10 min)" (is_spam (List.replicate 31 (0 : Int)) 0).2.length],
           none)
    ∧ on_message ⟨List.replicate 31 0, true⟩ 0 ⟨false, false⟩ false true false
        = (⟨(is_spam (List.replicate 31 0) 0).2, true⟩,
           [Effect.logSpam "DETECTED (No Permission)"
              (is_spam (List.replicate 31 (0 : Int)) 0).2.length],
           none) := by
  refine ⟨rfl, by decide, ?_, ?_, ?_⟩
  · exact (C9_fallback_amended ⟨List.replicate 31 0, true⟩ ⟨[], false⟩ 0 5 ⟨false, true⟩
      ⟨true, true⟩ true true false rfl (by decide)).1
  · exact (C9_fallback_amended ⟨List.replicate 31 0, true⟩ ⟨[], false⟩ 0 5 ⟨false, true⟩
      ⟨true, true⟩ true true false rfl (by decide)).2.2.1 rfl rfl
  · exact (C9_fallback_amended ⟨List.replicate 31 0, true⟩ ⟨[], false⟩ 0 5 ⟨false, false⟩
      ⟨true, true⟩ true true false rfl (by decide)).2.2.2 rfl rfl

/-- C10 — spam evaluation is never side-effect-free, confirmed: every
`is_spam` call appends the evaluation time to the user's window on top of
trimming it (count = trimmed length + 1); a timestamp recorded by one
evaluation is still observed by a second evaluation within the 60-second
window even with no intervening user messages, so the probes count
themselves; and the grace re-check inside `on_message` is exactly such an
`is_spam` call — in the user-slowed-down outcome the final window is the
re-check's output and contains the probe timestamp now + 40. -/
theorem C10_probe_recording (msgs : List Int) (now t1 t2 : Int) (st : SpamUserState)
    (h12 : t2 - t1 ≤ 60) (hw : st.warned = false) (hs : (is_spam st.msgs now).1 = true)
    (hs2 : (is_spam (is_spam st.msgs now).2 (now + 40)).1 = false) :
    (is_spam msgs now).2 = msgs.dropWhile (fun t => decide (now - t > 60)) ++ [now]
    ∧ (is_spam msgs now).2.length
        = (msgs.dropWhile (fun t => decide (now - t > 60))).length + 1
    ∧ t1 ∈ (is_spam (is_spam msgs t1).2 t2).2
    ∧ (on_message st now ⟨true, true⟩ false true false).1.msgs
        = (is_spam (is_spam st.msgs now).2 (now + 40)).2
    ∧ (now + 40) ∈ (on_message st now ⟨true, true⟩ false true false).1.msgs := by
  have happ : ∀ (q : List Int) (t : Int),
      (is_spam q t).2 = q.dropWhile (fun u => decide (t - u > 60)) ++ [t] := by
    intro q t
    simp only [is_spam]
  have hmem : t1 ∈ (is_spam (is_spam msgs t1).2 t2).2 := by
    rw [happ (is_spam msgs t1).2 t2]
    refine List.mem_append_left _ ?_
    refine mem_dropWhile_of_mem _ t1 ?_ _ ?_
    · simp only [decide_eq_false_iff_not, not_lt]
      omega
    · rw [happ msgs t1]
      exact List.mem_append_right _ (List.mem_singleton.mpr rfl)
  have hfinal : (on_message st now ⟨true, true⟩ false true false).1.msgs
      = (is_spam (is_spam st.msgs now).2 (now + 40)).2 := by
    simp [on_message, hw, hs, hs2]
  refine ⟨happ msgs now, ?_, hmem, hfinal, ?_⟩
  · rw [happ msgs now, List.length_append, List.length_singleton]
  · rw [hfinal, happ (is_spam st.msgs now).2 (now + 40)]
    exact List.mem_append_right _ (List.mem_singleton.mpr rfl)

/-- C10 witness: 30 messages at time −30 breach at time 0; the grace
re-check at time 40 finds them expired (Clean outcome) yet still records its
own probe, which the final window contains; and a probe at time 0 is still
counted by a second evaluation at time 30. -/
theorem C10_probe_recording_witness :
    (30 : Int) - 0 ≤ 60
    ∧ (is_spam (List.replicate 30 (-30 : Int)) 0).1 = true
    ∧ (is_spam (is_spam (List.replicate 30 (-30 : Int)) 0).2 (0 + 40)).1 = false
    ∧ (is_spam ([] : List Int) 0).2
        = ([] : List Int).dropWhile (fun t => decide ((0 : Int) - t > 60)) ++ [0]
    ∧ (0 : Int) ∈ (is_spam (is_spam ([] : List Int) 0).2 30).2
    ∧ ((0 : Int) + 40) ∈
        (on_message ⟨List.replicate 30 (-30), false⟩ 0 ⟨true, true⟩ false true false).1.msgs := by
  refine ⟨by decide, by decide, by decide, ?_, ?_, ?_⟩
  · exact (C10_probe_recording [] 0 0 30 ⟨List.replicate 30 (-30), false⟩
      (by decide) rfl (by decide) (by decide)).1
  · exact (C10_probe_recording [] 0 0 30 ⟨List.replicate 30 (-30), false⟩
      (by decide) rfl (by decide) (by decide)).2.2.1
  · exact (C10_probe_recording [] 0 0 30 ⟨List.replicate 30 (-30), false⟩
      (by decide) rfl (by decide) (by decide)).2.2.2.2

end DiscordBot
